import Mathlib

/-
Verification of the "Campaign Generator" CLI (src/main.py).

The program is a single linear flow: parse command-line arguments, build a
prompt string, optionally short-circuit on --dry-run, perform one HTTP POST
to a chat-completion endpoint, validate/extract the JSON response, and write
the extracted text to a file.  We embed this flow shallowly: the network and
the environment are inputs (an `HttpResult` oracle and an `Option String`
credential), and the observable effects (exit code, the POST payload if one
was sent, the file written, stdout lines, the kind of failure) are collected
in a `Trace`.
-/

namespace Campaign

/-- JSON values, as produced by python `json.loads`: null, booleans, numbers
(modelled as rationals; the literals in this program are 800 and 0.7),
strings, arrays, and objects (ordered field lists with string keys). -/
inductive Json where
  | null
  | bool (b : Bool)
  | num (q : ℚ)
  | str (s : String)
  | arr (elems : List Json)
  | obj (fields : List (String × Json))

/-- First binding of key `k` in an object's field list (python dict lookup;
keys coming from `json.loads` are unique). -/
def jLookup (fields : List (String × Json)) (k : String) : Option Json :=
  match fields with
  | [] => none
  | (k2, v) :: rest => if k2 == k then some v else jLookup rest k

/-- Whether `pat` occurs at the start of `s`. -/
def startsWith (pat s : List Char) : Bool :=
  match pat, s with
  | [], _ => true
  | _ :: _, [] => false
  | a :: as, b :: bs => a == b && startsWith as bs

/-- Whether `pat` occurs as a contiguous substring of `s`
(python `pat in s` for strings). -/
def subOccurs (pat s : List Char) : Bool :=
  match s with
  | [] => startsWith pat []
  | _ :: rest => startsWith pat s || subOccurs pat rest

/-- Python `k in j` for a parsed JSON value `j`:
key membership for dicts, element membership for lists, substring test for
strings; `none` models the `TypeError` raised on the other types. -/
def containsKey (j : Json) (k : String) : Option Bool :=
  match j with
  | .obj fields => some (fields.any (fun f => f.1 == k))
  | .arr elems => some (elems.any (fun e =>
      match e with
      | .str t => t == k
      | _ => false))
  | .str s => some (subOccurs k.data s.data)
  | _ => none

/-- The distinct fatal diagnostics `chat_completion` can print before its
`sys.exit(1)`: transport failure (requests exception), JSON decode failure,
the `API Error:` message, the generic `Unexpected error:` handler, the
non-200 `Error response:` branch, and the `Failed to extract content`
branch (`KeyError`/`IndexError`). -/
inductive ChatFailure where
  | transport
  | jsonDecode
  | apiError
  | unexpected
  | badStatus
  | extractError
deriving DecidableEq

/-- Which diagnostic the `"error" in response_json` branch produces:
`response_json['error']['message']` prints the `API Error:` line only when
the error field holds a dict with a `message` key; otherwise the attempted
subscripting raises (`TypeError`/`KeyError`) and the generic handler fires. -/
def errorReason (j : Json) : ChatFailure :=
  match j with
  | .obj fields =>
    match jLookup fields "error" with
    | some (.obj efields) =>
      match jLookup efields "message" with
      | some _ => .apiError
      | none => .unexpected
    | _ => .unexpected
  | _ => .unexpected

/-- Python `j[k]` for string key `k`: dict lookup (`KeyError`, caught as
`extractError`, when absent), `TypeError` (generic handler) on any other
type. -/
def jGet (j : Json) (k : String) : Except ChatFailure Json :=
  match j with
  | .obj fields =>
    match jLookup fields k with
    | some v => .ok v
    | none => .error .extractError
  | _ => .error .unexpected

/-- Python `j[0]`: first element of a list (`IndexError` when empty), first
character of a string, `KeyError` on a string-keyed dict (the int key 0 is
never present), `TypeError` on the remaining types. -/
def jIndex0 (j : Json) : Except ChatFailure Json :=
  match j with
  | .arr [] => .error .extractError
  | .arr (x :: _) => .ok x
  | .str s =>
    match s.data with
    | [] => .error .extractError
    | c :: _ => .ok (.str (String.mk [c]))
  | .obj _ => .error .extractError
  | _ => .error .unexpected

/-- `response_json["choices"][0]["message"]["content"]`, with
`KeyError`/`IndexError` mapped to `extractError` (the dedicated handler) and
`TypeError` to `unexpected` (the generic handler). -/
def extractContent (j : Json) : Except ChatFailure Json :=
  match jGet j "choices" with
  | .error e => .error e
  | .ok choices =>
    match jIndex0 choices with
    | .error e => .error e
    | .ok c0 =>
      match jGet c0 "message" with
      | .error e => .error e
      | .ok msg => jGet msg "content"

/-- Default model identifier (`MODEL` in the source). -/
def MODEL : String := "google/palm-2-chat-bison"

/-- The outbound request body built in `chat_completion`. -/
def payload (model prompt : String) : Json :=
  .obj [("model", .str model),
        ("messages", .arr [.obj [("role", .str "user"), ("content", .str prompt)]]),
        ("max_tokens", .num 800),
        ("temperature", .num (7 / 10))]

/-- The network oracle: what the single `requests.post` would yield if
performed — a transport-level exception, or a response with a status code
and a body (`none` when `r.json()` fails to decode). -/
inductive HttpResult where
  | transportError
  | response (status : Nat) (body : Option Json)

/-- Outcome of `chat_completion`: abort before the POST (missing/empty
credential), abort after the POST (carrying the payload that was sent and
the diagnostic kind), or success with the extracted content value. -/
inductive ChatOutcome where
  | fatalNoKey
  | fatal (sent : Json) (reason : ChatFailure)
  | success (sent : Json) (content : Json)

/-- `chat_completion(prompt, model)` from src/main.py, as a function of the
credential from the environment and the network oracle.  The order of the
checks follows the source: credential (`if not key`, so `None` and `""` both
abort) before any request; then transport errors; then JSON decoding; then
the `"error" in response_json` field check; then `r.status_code != 200`;
then content extraction. -/
def chat_completion (prompt model : String) (key : Option String) (net : HttpResult) : ChatOutcome :=
  match key with
  | none => .fatalNoKey
  | some k =>
    if k.isEmpty then .fatalNoKey
    else
      match net with
      | .transportError => .fatal (payload model prompt) .transport
      | .response status body =>
        match body with
        | none => .fatal (payload model prompt) .jsonDecode
        | some j =>
          match containsKey j "error" with
          | none => .fatal (payload model prompt) .unexpected
          | some true => .fatal (payload model prompt) (errorReason j)
          | some false =>
            if status == 200 then
              match extractContent j with
              | .ok c => .success (payload model prompt) c
              | .error r => .fatal (payload model prompt) r
            else .fatal (payload model prompt) .badStatus

/-- The parsed argument record (`args` after `parser.parse_args()`). -/
structure Args where
  event : String
  date : String
  tone : String
  model : String
  output : String
  dryRun : Bool
  showResponse : Bool

/-- A command line, as seen by argparse: which options were provided
(`none` = flag absent) and the two boolean flags. -/
structure CmdLine where
  event : Option String
  date : Option String
  tone : Option String
  model : Option String
  output : Option String
  dryRun : Bool
  showResponse : Bool

/-- The `choices` list of `--tone`. -/
def toneChoices : List String := ["upbeat", "professional", "casual", "formal", "friendly"]

/-- Usage errors reported by argparse (both exit with the parser's failure
code 2): a `--tone` value outside `choices`, or the required `--event` flag
absent.  argparse validates `choices` while consuming the argument and
checks `required` afterwards, hence the tone check comes first. -/
inductive UsageError where
  | badTone
  | missingEvent
deriving DecidableEq

/-- Argument parsing from src/main.py `main()`: `--event` is required (but
its value is NOT checked for emptiness), `--date` defaults to today,
`--tone` defaults to "upbeat" and must be one of `toneChoices`, `--model`
defaults to `MODEL`, `--output` defaults to "out/campaign.md". -/
def parseArgs (today : String) (c : CmdLine) : Except UsageError Args :=
  if toneChoices.contains (c.tone.getD "upbeat") then
    match c.event with
    | some ev =>
      .ok { event := ev, date := c.date.getD today, tone := c.tone.getD "upbeat",
            model := c.model.getD MODEL, output := c.output.getD "out/campaign.md",
            dryRun := c.dryRun, showResponse := c.showResponse }
    | none => .error .missingEvent
  else .error .badTone

/-- `build_prompt(args)` from src/main.py: one f-string interpolation. -/
def build_prompt (event date tone : String) : String :=
  "Write five fundraising emails and four social captions for the " ++ event ++
    " on " ++ date ++ " in a " ++ tone ++ " tone."

/-- The characters python `str.strip()` removes (the `str.isspace()` set):
tab through carriage return (0x09-0x0D), the information separators
0x1C-0x1F, space, next line 0x85, no-break space 0xA0, ogham space mark
0x1680, the Zs spaces 0x2000-0x200A, line separator 0x2028, paragraph
separator 0x2029, narrow no-break space 0x202F, medium mathematical space
0x205F, and ideographic space 0x3000. -/
def pyIsSpace (c : Char) : Bool :=
  (9 ≤ c.toNat && c.toNat ≤ 13) || (28 ≤ c.toNat && c.toNat ≤ 32) ||
  c.toNat == 133 || c.toNat == 160 || c.toNat == 5760 ||
  (8192 ≤ c.toNat && c.toNat ≤ 8202) || c.toNat == 8232 || c.toNat == 8233 ||
  c.toNat == 8239 || c.toNat == 8287 || c.toNat == 12288

/-- Python truthiness of a parsed JSON value (`not response`). -/
def pyFalsy (j : Json) : Bool :=
  match j with
  | .null => true
  | .bool b => !b
  | .num q => q == 0
  | .str s => s.isEmpty
  | .arr elems => elems.isEmpty
  | .obj fields => fields.isEmpty

/-- `os.path.dirname` (posix): everything up to the last '/', with trailing
slashes stripped unless the head is all slashes; "" when there is no '/'. -/
def lastSlashPos (cs : List Char) : Option Nat :=
  match cs with
  | [] => none
  | c :: rest =>
    match lastSlashPos rest with
    | some k => some (k + 1)
    | none => if c == '/' then some 0 else none

/-- Drop trailing '/' characters. -/
def dropTrailing (cs : List Char) : List Char :=
  (cs.reverse.dropWhile (fun c => c == '/')).reverse

/-- `os.path.dirname(p)` for posix paths. -/
def dirname (p : String) : String :=
  match lastSlashPos p.data with
  | none => ""
  | some k =>
    let head := p.data.take (k + 1)
    if head.all (fun c => c == '/') then String.mk head
    else String.mk (dropTrailing head)

/-- The distinct ways `main()` can abort: argparse usage error (exit 2);
missing credential; a `chat_completion` failure; the dedicated
`Error: Received empty response from API` branch; the unhandled
`FileNotFoundError` from `os.makedirs('')` when the output path has no
directory component; the unhandled `AttributeError` from `.strip()` on a
non-string content value. -/
inductive MainFailure where
  | usage
  | noKey
  | chat (r : ChatFailure)
  | emptyResponse
  | makedirsCrash
  | stripCrash
deriving DecidableEq

/-- Observable effects of one invocation: process exit code, the POST body
if a request was attempted (`none` = no network side effect), the file
written (`none` = no file side effect), the lines printed to stdout, and
the failure kind (`none` = success path). -/
structure Trace where
  exitCode : Nat
  sent : Option Json
  written : Option (String × String)
  stdout : List String
  failure : Option MainFailure

/-- The separator line `"-" * 50`. -/
def sep : String := String.mk (List.replicate 50 '-')

/-- `main()` from src/main.py, as a function of today's date (the `--date`
default), the command line, the `OPENROUTER_API_KEY` environment value, and
the network oracle.  The flow is the source's: parse; build the prompt;
dry-run prints the framed prompt and returns (exit 0) before anything else;
otherwise call `chat_completion`; reject empty/whitespace-only content with
the dedicated message; `os.makedirs(os.path.dirname(output), exist_ok=True)`
(which raises when the dirname is empty); write the file; print the saved
path; optionally echo the framed content. -/
def runMain (today : String) (c : CmdLine) (key : Option String) (net : HttpResult) : Trace :=
  match parseArgs today c with
  | .error _ => ⟨2, none, none, [], some .usage⟩
  | .ok args =>
    if args.dryRun then
      ⟨0, none, none,
        ["", "Generated Prompt:", sep, build_prompt args.event args.date args.tone, sep],
        none⟩
    else
      match chat_completion (build_prompt args.event args.date args.tone) args.model key net with
      | .fatalNoKey => ⟨1, none, none, [], some .noKey⟩
      | .fatal p r => ⟨1, some p, none, [], some (.chat r)⟩
      | .success p content =>
        match content with
        | .str s =>
          if s.isEmpty || s.data.all pyIsSpace then
            ⟨1, some p, none, [], some .emptyResponse⟩
          else if (dirname args.output).isEmpty then
            ⟨1, some p, none, [], some .makedirsCrash⟩
          else
            ⟨0, some p, some (args.output, s),
              if args.showResponse then
                ["", "Content saved to: " ++ args.output] ++
                  ["", "Generated Content:", sep, s, sep]
              else ["", "Content saved to: " ++ args.output],
              none⟩
        | j =>
          if pyFalsy j then ⟨1, some p, none, [], some .emptyResponse⟩
          else ⟨1, some p, none, [], some .stripCrash⟩

/-- The simulated successful body from the spec's test list:
`{"choices":[{"message":{"content":"Hello"}}]}`. -/
def helloBody : Json :=
  .obj [("choices", .arr [.obj [("message", .obj [("content", .str "Hello")])]])]

/-- A body carrying an API error object AND a perfectly valid choices array,
used to observe which failure branch fires first. -/
def errBody : Json :=
  .obj [("error", .obj [("message", .str "bad key")]),
        ("choices", .arr [.obj [("message", .obj [("content", .str "ok")])]])]

/-- The simulated whitespace-only body from the spec's test list:
`{"choices":[{"message":{"content":"   "}}]}`. -/
def blankBody : Json :=
  .obj [("choices", .arr [.obj [("message", .obj [("content", .str "   ")])]])]

/-- Parsing copies the dry-run flag unchanged into the argument record. -/
theorem parseArgs_dryRun (today : String) (c : CmdLine) (args : Args)
    (h : parseArgs today c = Except.ok args) : args.dryRun = c.dryRun := by
  unfold parseArgs at h
  split at h
  · split at h
    · injection h with h2
      subst h2
      rfl
    · exact Except.noConfusion h
  · exact Except.noConfusion h

/-- Every outcome of `chat_completion` either precedes the POST, or carries
exactly the payload built from the model and prompt. -/
theorem chat_completion_sent (prompt model : String) (key : Option String) (net : HttpResult) :
    chat_completion prompt model key net = .fatalNoKey ∨
    (∃ r, chat_completion prompt model key net = .fatal (payload model prompt) r) ∨
    (∃ c, chat_completion prompt model key net = .success (payload model prompt) c) := by
  unfold chat_completion
  repeat' split
  all_goals simp

/-- With a non-empty credential, a 200 response whose body is `helloBody`
yields the extracted content "Hello". -/
theorem chat_hello (prompt model k : String) (hk : k.isEmpty = false) :
    chat_completion prompt model (some k) (.response 200 (some helloBody)) =
      .success (payload model prompt) (.str "Hello") := by
  unfold chat_completion
  simp only [hk]
  rfl

/-- The string "Hello" is neither empty nor whitespace-only. -/
theorem hello_not_blank : ("Hello".isEmpty || "Hello".data.all pyIsSpace) = false := by decide

/-- C1: for every invocation that parses, is not a dry run, has a usable
credential and an output path with a directory component, a success (200)
response whose parsed body is `{"choices":[{"message":{"content":"Hello"}}]}`
leads to the output file being written with contents exactly "Hello" and a
successful exit. -/
theorem C1_success_writes_hello (today : String) (c : CmdLine) (args : Args) (k : String)
    (hp : parseArgs today c = Except.ok args) (hd : args.dryRun = false)
    (hk : k.isEmpty = false) (hdir : (dirname args.output).isEmpty = false) :
    (runMain today c (some k) (.response 200 (some helloBody))).written =
      some (args.output, "Hello") ∧
    (runMain today c (some k) (.response 200 (some helloBody))).exitCode = 0 := by
  unfold runMain
  rw [hp]
  simp only [hd, Bool.false_eq_true, if_false]
  rw [chat_hello _ _ _ hk]
  simp only [hello_not_blank, Bool.false_eq_true, if_false, hdir]
  exact ⟨rfl, rfl⟩

/-- Witness for C1 at the concrete invocation `--event Gala` with defaults,
credential "sk" and the simulated Hello response. -/
theorem C1_witness :
    (runMain "2026-10-12" ⟨some "Gala", none, none, none, none, false, false⟩ (some "sk")
        (.response 200 (some helloBody))).written = some ("out/campaign.md", "Hello") ∧
    (runMain "2026-10-12" ⟨some "Gala", none, none, none, none, false, false⟩ (some "sk")
        (.response 200 (some helloBody))).exitCode = 0 :=
  C1_success_writes_hello "2026-10-12" ⟨some "Gala", none, none, none, none, false, false⟩
    ⟨"Gala", "2026-10-12", "upbeat", MODEL, "out/campaign.md", false, false⟩ "sk" rfl rfl rfl rfl

/-- C2: the failure checks on a parsed body run in the source's order.
First conjunct: when the body contains an error field (`"error" in
response_json` is true), the outcome is the error-field branch's diagnostic
(`errorReason`) for EVERY status code, 200 included — the status is never
consulted.  Second conjunct: when no error field is present, a non-200
status is fatal with the status-branch diagnostic, even though the body may
hold a perfectly valid choices array (the conclusion holds for every such
body, in particular ones where `extractContent` succeeds). -/
theorem C2_failure_check_order (prompt model k : String) (hk : k.isEmpty = false)
    (status : Nat) (j : Json) :
    (containsKey j "error" = some true →
      chat_completion prompt model (some k) (.response status (some j)) =
        .fatal (payload model prompt) (errorReason j)) ∧
    (containsKey j "error" = some false → status ≠ 200 →
      chat_completion prompt model (some k) (.response status (some j)) =
        .fatal (payload model prompt) .badStatus) := by
  unfold chat_completion
  simp only [hk, Bool.false_eq_true, if_false]
  constructor
  · intro h
    rw [h]
  · intro h hs
    rw [h]
    simp [hs]

/-- Witness for C2: a 200 response carrying both an error object and a valid
choices array dies via the error-field branch (`apiError`), and a 500
response with a valid choices array and no error field dies via the
status branch. -/
theorem C2_witness :
    chat_completion "p" "m" (some "k") (.response 200 (some errBody)) =
      .fatal (payload "m" "p") (errorReason errBody) ∧
    chat_completion "p" "m" (some "k") (.response 500 (some helloBody)) =
      .fatal (payload "m" "p") .badStatus :=
  ⟨(C2_failure_check_order "p" "m" "k" rfl 200 errBody).1 rfl,
   (C2_failure_check_order "p" "m" "k" rfl 500 helloBody).2 rfl (by decide)⟩

/-- C3: whenever the completion call succeeds with a string content that is
empty or whitespace-only, the run aborts with the dedicated empty-response
diagnostic (distinct from every transport/parse failure kind), exit code 1,
and writes no file. -/
theorem C3_blank_content_fatal (today : String) (c : CmdLine) (key : Option String)
    (net : HttpResult) (args : Args) (p : Json) (s : String)
    (hp : parseArgs today c = Except.ok args) (hd : args.dryRun = false)
    (hc : chat_completion (build_prompt args.event args.date args.tone) args.model key net =
      .success p (.str s))
    (hs : s.data.all pyIsSpace = true) :
    runMain today c key net = ⟨1, some p, none, [], some .emptyResponse⟩ := by
  unfold runMain
  rw [hp]
  simp only [hd, Bool.false_eq_true, if_false]
  rw [hc]
  simp [hs]

/-- Witness for C3 at the concrete whitespace-only simulated response. -/
theorem C3_witness :
    runMain "2026-10-12" ⟨some "Gala", none, none, none, none, false, false⟩ (some "sk")
        (.response 200 (some blankBody)) =
      ⟨1, some (payload MODEL (build_prompt "Gala" "2026-10-12" "upbeat")), none, [],
        some .emptyResponse⟩ :=
  C3_blank_content_fatal "2026-10-12" ⟨some "Gala", none, none, none, none, false, false⟩
    (some "sk") (.response 200 (some blankBody))
    ⟨"Gala", "2026-10-12", "upbeat", MODEL, "out/campaign.md", false, false⟩
    (payload MODEL (build_prompt "Gala" "2026-10-12" "upbeat")) "   " rfl rfl rfl rfl

/-- Counterexample to C4 as stated: with `--output campaign.md` (no
directory component) and an otherwise perfect run, `os.path.dirname` yields
"" and `os.makedirs("", exist_ok=True)` raises `FileNotFoundError`, so the
process aborts with a non-zero exit and the file is NOT written. -/
theorem C4_counterexample :
    (runMain "2026-10-12" ⟨some "Gala", none, none, none, some "campaign.md", false, false⟩
        (some "sk") (.response 200 (some helloBody))).written = none ∧
    (runMain "2026-10-12" ⟨some "Gala", none, none, none, some "campaign.md", false, false⟩
        (some "sk") (.response 200 (some helloBody))).exitCode = 1 ∧
    (runMain "2026-10-12" ⟨some "Gala", none, none, none, some "campaign.md", false, false⟩
        (some "sk") (.response 200 (some helloBody))).failure = some .makedirsCrash :=
  ⟨rfl, rfl, rfl⟩

/-- C4 (amended): after a non-blank string completion, when the output
path's dirname is non-empty the directory is created and the write succeeds
with the completion as the file's contents; when the output path has no
directory component, `os.makedirs("")` raises and the program aborts
without writing. -/
theorem C4_amended_makedirs (today : String) (c : CmdLine) (key : Option String)
    (net : HttpResult) (args : Args) (p : Json) (s : String)
    (hp : parseArgs today c = Except.ok args) (hd : args.dryRun = false)
    (hc : chat_completion (build_prompt args.event args.date args.tone) args.model key net =
      .success p (.str s))
    (hs : (s.isEmpty || s.data.all pyIsSpace) = false) :
    ((dirname args.output).isEmpty = false →
      (runMain today c key net).written = some (args.output, s) ∧
      (runMain today c key net).exitCode = 0) ∧
    ((dirname args.output).isEmpty = true →
      (runMain today c key net).written = none ∧
      (runMain today c key net).exitCode = 1 ∧
      (runMain today c key net).failure = some .makedirsCrash) := by
  unfold runMain
  rw [hp]
  simp only [hd, Bool.false_eq_true, if_false]
  rw [hc]
  simp only [hs, Bool.false_eq_true, if_false]
  constructor
  · intro hdir
    simp [hdir]
  · intro hdir
    simp [hdir]

/-- Witness for the amended C4: the default output path `out/campaign.md`
has dirname "out", so the write succeeds. -/
theorem C4_witness :
    (runMain "2026-10-12" ⟨some "Gala", none, none, none, none, false, false⟩ (some "sk")
        (.response 200 (some helloBody))).written = some ("out/campaign.md", "Hello") ∧
    (runMain "2026-10-12" ⟨some "Gala", none, none, none, none, false, false⟩ (some "sk")
        (.response 200 (some helloBody))).exitCode = 0 :=
  (C4_amended_makedirs "2026-10-12" ⟨some "Gala", none, none, none, none, false, false⟩
    (some "sk") (.response 200 (some helloBody))
    ⟨"Gala", "2026-10-12", "upbeat", MODEL, "out/campaign.md", false, false⟩
    (payload MODEL (build_prompt "Gala" "2026-10-12" "upbeat")) "Hello" rfl rfl rfl rfl).1 rfl

/-- Counterexample to C5 as stated: a dry-run invocation with the
credential absent exits with code 0 (successfully), not fatally — the
prompt is printed and no request is sent. -/
theorem C5_counterexample :
    (runMain "2026-10-12" ⟨some "Gala", none, none, none, none, true, false⟩
        none .transportError).exitCode = 0 ∧
    (runMain "2026-10-12" ⟨some "Gala", none, none, none, none, true, false⟩
        none .transportError).sent = none :=
  ⟨rfl, rfl⟩

/-- C5 (amended): for every invocation WITHOUT the dry-run flag in which
the credential environment variable is absent, the program exits with a
non-zero code and no HTTP POST is ever attempted (this covers both
usage-error exits and the missing-credential exit inside
`chat_completion`). -/
theorem C5_amended_no_key (today : String) (c : CmdLine) (net : HttpResult)
    (hd : c.dryRun = false) :
    (runMain today c none net).exitCode ≠ 0 ∧ (runMain today c none net).sent = none := by
  unfold runMain
  cases hp : parseArgs today c with
  | error e =>
    refine ⟨?_, rfl⟩
    show (2 : Nat) ≠ 0
    decide
  | ok args =>
    have hda : args.dryRun = false := (parseArgs_dryRun today c args hp).trans hd
    simp only [hda, Bool.false_eq_true, if_false]
    refine ⟨?_, rfl⟩
    show (1 : Nat) ≠ 0
    decide

/-- Witness for the amended C5 at a concrete non-dry-run invocation. -/
theorem C5_witness :
    (runMain "2026-10-12" ⟨some "Gala", none, none, none, none, false, false⟩
        none .transportError).exitCode ≠ 0 ∧
    (runMain "2026-10-12" ⟨some "Gala", none, none, none, none, false, false⟩
        none .transportError).sent = none :=
  C5_amended_no_key "2026-10-12" ⟨some "Gala", none, none, none, none, false, false⟩
    .transportError rfl

/-- C6: every parsed invocation with the dry-run flag prints exactly the
generated prompt framed by the 50-hyphen separator lines, exits 0, sends no
request and writes no file — for every credential state and every network
oracle. -/
theorem C6_dry_run (today : String) (c : CmdLine) (key : Option String) (net : HttpResult)
    (args : Args) (hp : parseArgs today c = Except.ok args) (hd : args.dryRun = true) :
    runMain today c key net =
      ⟨0, none, none,
        ["", "Generated Prompt:", sep, build_prompt args.event args.date args.tone, sep],
        none⟩ := by
  unfold runMain
  rw [hp]
  simp [hd]

/-- Witness for C6 at the concrete invocation `--event Gala --dry-run`. -/
theorem C6_witness :
    runMain "2026-10-12" ⟨some "Gala", none, none, none, none, true, false⟩
        (some "sk") .transportError =
      ⟨0, none, none,
        ["", "Generated Prompt:", sep, build_prompt "Gala" "2026-10-12" "upbeat", sep],
        none⟩ :=
  C6_dry_run "2026-10-12" ⟨some "Gala", none, none, none, none, true, false⟩
    (some "sk") .transportError
    ⟨"Gala", "2026-10-12", "upbeat", MODEL, "out/campaign.md", true, false⟩ rfl rfl

/-- C7: `build_prompt` is a pure function (two calls on identical inputs
are identical), and its output contains the event name, the date and the
tone label verbatim, each as a contiguous substring. -/
theorem C7_build_prompt_pure (event date tone : String) :
    build_prompt event date tone = build_prompt event date tone ∧
    (∃ a b, build_prompt event date tone = a ++ (event ++ b)) ∧
    (∃ a b, build_prompt event date tone = a ++ (date ++ b)) ∧
    (∃ a b, build_prompt event date tone = a ++ (tone ++ b)) := by
  refine ⟨rfl,
    ⟨"Write five fundraising emails and four social captions for the ",
     " on " ++ date ++ " in a " ++ tone ++ " tone.", ?_⟩,
    ⟨"Write five fundraising emails and four social captions for the " ++ event ++ " on ",
     " in a " ++ tone ++ " tone.", ?_⟩,
    ⟨"Write five fundraising emails and four social captions for the " ++ event ++ " on " ++
       date ++ " in a ",
     " tone.", ?_⟩⟩ <;>
  simp [build_prompt, String.append_assoc]

/-- Counterexample to C8 as stated: `--event ""` (the flag present with an
empty value) is accepted by the parser, and the invocation proceeds all the
way to a network attempt instead of failing with a usage error. -/
theorem C8_counterexample :
    (runMain "2026-10-12" ⟨some "", none, none, none, none, false, false⟩
        (some "sk") .transportError).sent.isSome = true ∧
    (runMain "2026-10-12" ⟨some "", none, none, none, none, false, false⟩
        (some "sk") .transportError).failure ≠ some .usage :=
  ⟨rfl, by decide⟩

/-- C8 (amended): parsing requires the event flag to be PRESENT (its value
may be empty) and the tone to lie in {upbeat, professional, casual, formal,
friendly}; when the event flag is absent or the tone falls outside the set,
the program exits with the argparse failure code 2 before any network
activity and with no file written. -/
theorem C8_amended_usage (today : String) (c : CmdLine) (key : Option String) (net : HttpResult)
    (h : c.event = none ∨ toneChoices.contains (c.tone.getD "upbeat") = false) :
    runMain today c key net = ⟨2, none, none, [], some .usage⟩ := by
  have he : ∃ e, parseArgs today c = .error e := by
    unfold parseArgs
    rcases h with h | h
    · split
      · rw [h]
        exact ⟨.missingEvent, rfl⟩
      · exact ⟨.badTone, rfl⟩
    · simp only [h, Bool.false_eq_true, if_false]
      exact ⟨.badTone, rfl⟩
  rcases he with ⟨e, he⟩
  unfold runMain
  rw [he]

/-- Witness for the amended C8: an invocation missing the required event
flag (and with an out-of-set tone) exits 2 with no request. -/
theorem C8_witness :
    runMain "2026-10-12" ⟨none, none, some "sarcastic", none, none, false, false⟩
        (some "sk") .transportError =
      ⟨2, none, none, [], some .usage⟩ :=
  C8_amended_usage "2026-10-12" ⟨none, none, some "sarcastic", none, none, false, false⟩
    (some "sk") .transportError (Or.inl rfl)

/-- C9: whenever any run sends a request, the body sent is exactly the JSON
object with fields model, messages (one user message whose content is the
built prompt), max_tokens 800 and temperature 0.7 — no other fields. -/
theorem C9_request_body (today : String) (c : CmdLine) (key : Option String)
    (net : HttpResult) (args : Args) (p : Json)
    (hp : parseArgs today c = Except.ok args)
    (hs : (runMain today c key net).sent = some p) :
    p = Json.obj [("model", .str args.model),
          ("messages", .arr [.obj [("role", .str "user"),
            ("content", .str (build_prompt args.event args.date args.tone))]]),
          ("max_tokens", .num 800),
          ("temperature", .num (7 / 10))] := by
  have hpay : p = payload args.model (build_prompt args.event args.date args.tone) := by
    unfold runMain at hs
    rw [hp] at hs
    cases hd : args.dryRun with
    | true =>
      simp [hd] at hs
    | false =>
      simp only [hd, Bool.false_eq_true, if_false] at hs
      rcases chat_completion_sent (build_prompt args.event args.date args.tone)
          args.model key net with h | ⟨r, h⟩ | ⟨cc, h⟩
      · rw [h] at hs
        simp at hs
      · rw [h] at hs
        simp at hs
        exact hs.symm
      · rw [h] at hs
        cases cc <;> (repeat' split at hs) <;> simp_all
  rw [hpay]
  rfl

/-- Witness for C9 at a concrete invocation whose transport fails after
sending: the recorded payload is the specified object. -/
theorem C9_witness :
    payload MODEL (build_prompt "Gala" "2026-10-12" "upbeat") =
      Json.obj [("model", .str MODEL),
        ("messages", .arr [.obj [("role", .str "user"),
          ("content", .str (build_prompt "Gala" "2026-10-12" "upbeat"))]]),
        ("max_tokens", .num 800),
        ("temperature", .num (7 / 10))] :=
  C9_request_body "2026-10-12" ⟨some "Gala", none, none, none, none, false, false⟩
    (some "sk") .transportError
    ⟨"Gala", "2026-10-12", "upbeat", MODEL, "out/campaign.md", false, false⟩
    (payload MODEL (build_prompt "Gala" "2026-10-12" "upbeat")) rfl rfl

/-- C10: the dry-run short-circuit comes before the credential is read, so
a parsed dry-run invocation with the credential entirely absent still exits
0 and never attempts a request. -/
theorem C10_dry_run_without_key (today : String) (c : CmdLine) (net : HttpResult)
    (args : Args) (hp : parseArgs today c = Except.ok args) (hd : args.dryRun = true) :
    (runMain today c none net).exitCode = 0 ∧ (runMain today c none net).sent = none := by
  unfold runMain
  rw [hp]
  simp [hd]

/-- Witness for C10 at the concrete invocation `--event Gala --dry-run`
with no credential in the environment. -/
theorem C10_witness :
    (runMain "2026-10-12" ⟨some "Gala", none, none, none, none, true, false⟩
        none .transportError).exitCode = 0 ∧
    (runMain "2026-10-12" ⟨some "Gala", none, none, none, none, true, false⟩
        none .transportError).sent = none :=
  C10_dry_run_without_key "2026-10-12" ⟨some "Gala", none, none, none, none, true, false⟩
    .transportError
    ⟨"Gala", "2026-10-12", "upbeat", MODEL, "out/campaign.md", true, false⟩ rfl rfl

end Campaign
